import Mathlib

/-!
Verification of the RZBoard flashing utility (`flash_utils/flash.py`).

The program is a sequential, single-threaded driver that talks to a board
over a serial link, reads image files, and shells out to `fastboot`.  We
embed it shallowly: every side effect the program performs is recorded as
an `Event`, and every Python method of `FlashUtil` becomes a Lean function
returning a `Run` (the list of events it performs, together with whether
it completed or aborted via `die`/`argparser.error`).  A `die` (Python
`sys.exit`) aborts the rest of the program, so sequencing (`Run.seq`)
discards the continuation when the first part died.

The environment (`Env`) supplies everything the program observes from the
outside world: which paths exist on disk, the host platform, whether the
serial port opens, the line the board prints after entering fastboot mode,
and the fastboot subprocess exit code.  Blocking serial reads are modelled
as always eventually succeeding (the code has no timeouts), so the only
branching is on the environment and the parsed arguments.
-/

namespace RZBoard

/-- A single quote character (U+0027), used in wire strings and messages. -/
def SQ : String := String.singleton (Char.ofNat 39)

/-- Observable side effects of the program, in program order.
`serialWrite s` is `serial_port.write(s.encode())`; `fileSend p` is
`write_file_to_serial(p)` (the bytes of file `p` written to the link);
`readUntil d` is a blocking `serial_port.read_until(d.encode())`;
`readLine` is `serial_port.readline()`; `openSerial` is the
`serial.Serial(port, baudrate)` constructor call; `runFastboot c` is the
`Popen` of the command line `c`. -/
inductive Event where
  | openSerial (port : String) (baud : Nat)
  | serialWrite (data : String)
  | fileSend (path : String)
  | readUntil (delim : String)
  | readLine
  | sleep (seconds : Nat)
  | extractZip (archive : String) (dest : String)
  | chmod (path : String) (mode : Nat)
  | runFastboot (cmd : String)
  deriving Repr, DecidableEq

/-- A fatal termination: the message and exit code passed to `sys.exit`
(via `die`, which uses code 1, or `argparser.error`, which exits 2). -/
structure Died where
  msg : String
  code : Nat
  deriving Repr, DecidableEq

/-- Whether a program fragment ran to completion or aborted. -/
inductive Outcome where
  | ok
  | died (d : Died)
  deriving Repr, DecidableEq

/-- The behaviour of a program fragment: the events it performed, and
whether it completed. -/
structure Run where
  trace : List Event
  outcome : Outcome
  deriving Repr, DecidableEq

/-- Sequential composition: if the first fragment died, the second never
runs (Python `sys.exit` unwinds the whole process). -/
def Run.seq (r1 r2 : Run) : Run :=
  match r1.outcome with
  | .ok => ⟨r1.trace ++ r2.trace, r2.outcome⟩
  | .died _ => r1

/-- A fragment that performs one event and completes. -/
def emit (e : Event) : Run := ⟨[e], .ok⟩

/-- A fragment that performs nothing. -/
def skipRun : Run := ⟨[], .ok⟩

/-- `die(msg, code)`: print the error and exit the process. -/
def dieRun (msg : String) (code : Nat) : Run := ⟨[], .died ⟨msg, code⟩⟩

@[simp] theorem Run.seq_trace_ok (t1 : List Event) (r2 : Run) :
    (Run.seq ⟨t1, .ok⟩ r2) = ⟨t1 ++ r2.trace, r2.outcome⟩ := rfl

@[simp] theorem Run.seq_died (t1 : List Event) (d : Died) (r2 : Run) :
    (Run.seq ⟨t1, .died d⟩ r2) = ⟨t1, .died d⟩ := rfl

@[simp] theorem emit_def (e : Event) : emit e = ⟨[e], .ok⟩ := rfl
@[simp] theorem skipRun_def : skipRun = ⟨[], .ok⟩ := rfl
@[simp] theorem dieRun_def (msg : String) (code : Nat) :
    dieRun msg code = ⟨[], .died ⟨msg, code⟩⟩ := rfl

/-- The parsed command-line arguments (the `argparse` result), with the
types `argparse` produces: `store_true` flags are `Bool`, `store` string
options default to `None` (here `Option String`), `staticIP` defaults to
the empty string. -/
structure Args where
  bootloader : Bool
  rootfs : Bool
  full : Bool
  serialPort : String
  baudRate : Nat
  flash_writer_image_override : Option String
  bl2_image_override : Option String
  fip_image_override : Option String
  rootfs_image_override : Option String
  image_path : Option String
  staticIP : String
  qspi : Bool
  debug : Bool
  deriving Repr, DecidableEq

/-- Python truthiness of an optional string: `None` and `""` are falsy. -/
def truthy : Option String → Bool
  | none => false
  | some s => !s.isEmpty

/-- The outside world as the program observes it. -/
structure Env where
  /-- `os.path.isfile p` for nonempty `p` (see `isfile`). -/
  fileExists : String → Bool
  /-- `os.path.exists p` (used only for the `platform-tools` directory). -/
  pathExists : String → Bool
  /-- `sys.platform`. -/
  platform : String
  /-- whether `serial.Serial(...)` succeeds. -/
  serialOpenOk : Bool
  /-- the decoded line `readline()` returns after the fastboot banner. -/
  readLineResult : String
  /-- the exit code of the fastboot subprocess. -/
  fastbootReturncode : Int

/-- `os.path.isfile`: the empty path is never a file (a fact of the OS
interface the code relies on in `__extract_adb`); otherwise the
environment decides. -/
def isfile (env : Env) (p : String) : Bool :=
  !p.isEmpty && env.fileExists p

def FLASH_WRITER_FILE_DEFAULT : String := "Flash_Writer_SCIF_rzboard.mot"
def BL2_FILE_DEFAULT : String := "bl2_bp-rzboard.srec"
def FIP_FILE_DEFAULT : String := "fip-rzboard.srec"
def CORE_IMAGE_FILE_DEFAULT : String := "avnet-core-image-rzboard.wic"

/-- The instance attributes `FlashUtil.__init__` sets before dispatching:
the script directory and the four image paths (defaults possibly
overridden), plus the parsed arguments. -/
structure FlashUtilState where
  script_dir : String
  flash_writer_image : String
  bl2_image : String
  fip_image : String
  rootfs_image : String
  args : Args
  deriving Repr, DecidableEq

/-- `handle_path_overrides`: apply the per-image `--image_*` overrides,
then (if `--image_path` is truthy) point all four images into that
directory. -/
def handle_path_overrides (st : FlashUtilState) : FlashUtilState :=
  let st :=
    if truthy st.args.flash_writer_image_override then
      { st with flash_writer_image := st.args.flash_writer_image_override.getD "" }
    else st
  let st :=
    if truthy st.args.bl2_image_override then
      { st with bl2_image := st.args.bl2_image_override.getD "" }
    else st
  let st :=
    if truthy st.args.fip_image_override then
      { st with fip_image := st.args.fip_image_override.getD "" }
    else st
  let st :=
    if truthy st.args.rootfs_image_override then
      { st with rootfs_image := st.args.rootfs_image_override.getD "" }
    else st
  if truthy st.args.image_path then
    let p := st.args.image_path.getD ""
    { st with
      flash_writer_image := p ++ "/" ++ FLASH_WRITER_FILE_DEFAULT
      bl2_image := p ++ "/" ++ BL2_FILE_DEFAULT
      fip_image := p ++ "/" ++ FIP_FILE_DEFAULT
      rootfs_image := p ++ "/" ++ CORE_IMAGE_FILE_DEFAULT }
  else st

/-- The attribute state after `__init__` assigned the script-directory
defaults and `argparse_and_override_defaults` ran `handle_path_overrides`. -/
def initState (script_dir : String) (args : Args) : FlashUtilState :=
  handle_path_overrides
    { script_dir := script_dir
      flash_writer_image := script_dir ++ "/" ++ FLASH_WRITER_FILE_DEFAULT
      bl2_image := script_dir ++ "/" ++ BL2_FILE_DEFAULT
      fip_image := script_dir ++ "/" ++ FIP_FILE_DEFAULT
      rootfs_image := script_dir ++ "/" ++ CORE_IMAGE_FILE_DEFAULT
      args := args }

/-- `write_serial_cmd(cmd, prefix="")`: write `prefix + cmd + "\r"` to the
serial port (`pre` is the `prefix` keyword argument). -/
def write_serial_cmd (cmd : String) (pre : String) : Run :=
  emit (.serialWrite (pre ++ cmd ++ "\r"))

/-- `write_file_to_serial(file)`: write the bytes of `file` to the port. -/
def write_file_to_serial (file : String) : Run :=
  emit (.fileSend file)

/-- `wait_for_serial_read(cond, print_buffer)`: block until `cond` is read
from the port (the `print_buffer` console echo has no wire effect and is
not modelled). -/
def wait_for_serial_read (cond : String) : Run :=
  emit (.readUntil cond)

/-- The fixed text of the port-open failure diagnostic (the Python
message interpolates the caught exception where the ellipsis stands). -/
def UNABLE_OPEN_MSG : String :=
  "Unable to open serial port. Error: ...\n" ++
  "Do you have sufficient permissions? Is your device connected?"

/-- `__setup_serial_port`: attempt to open the serial port; on failure,
`die` with a diagnostic. -/
def setup_serial_port (env : Env) (args : Args) : Run :=
  (emit (.openSerial args.serialPort args.baudRate)).seq
    (if env.serialOpenOk then skipRun
     else dieRun UNABLE_OPEN_MSG 1)

/-- `check_bootloader_files`: die on the first of the three bootloader
images missing from disk. -/
def check_bootloader_files (env : Env) (st : FlashUtilState) : Run :=
  ((if isfile env st.flash_writer_image then skipRun
    else dieRun ("Missing flash writer image: " ++ st.flash_writer_image) 1).seq
   (if isfile env st.bl2_image then skipRun
    else dieRun ("Missing bl2 image: " ++ st.bl2_image) 1)).seq
  (if isfile env st.fip_image then skipRun
   else dieRun ("Missing FIP image: " ++ st.fip_image) 1)

/-- `flash_flash_writer`: send the flash-writer image, wait for `>`. -/
def flash_flash_writer (st : FlashUtilState) : Run :=
  (write_file_to_serial st.flash_writer_image).seq
    (wait_for_serial_read ">")

/-- `flash_erase_emmc`: `EM_E`, wait `>`, `1`, wait `>`. -/
def flash_erase_emmc : Run :=
  (((write_serial_cmd "EM_E" "").seq
    (wait_for_serial_read ">")).seq
   (write_serial_cmd "1" "")).seq
  (wait_for_serial_read ">")

/-- `setup_emmc_flash`: the EXT_CSD modification sequence
`EM_SECSD`/`b1`/`2` then `EM_SECSD`/`b3`/`8`, each gated on `:` or `>`. -/
def setup_emmc_flash : Run :=
  ((((((((((write_serial_cmd "EM_SECSD" "").seq
    (wait_for_serial_read ":")).seq
   (write_serial_cmd "b1" "")).seq
  (wait_for_serial_read ":")).seq
  (write_serial_cmd "2" "")).seq
  (wait_for_serial_read ">")).seq
  (write_serial_cmd "EM_SECSD" "")).seq
  (wait_for_serial_read ":")).seq
  (write_serial_cmd "b3" "")).seq
  (wait_for_serial_read ":")).seq
  (write_serial_cmd "8" "")

/-- `flash_bl2_image_emmc`: `EM_W`/`1`/`1`/`11E00`, then the bl2 image
after `please send !`, then wait for `EM_W Complete!`. -/
def flash_bl2_image_emmc (st : FlashUtilState) : Run :=
  (((((((((write_serial_cmd "EM_W" "").seq
    (wait_for_serial_read ">")).seq
   (write_serial_cmd "1" "")).seq
  (wait_for_serial_read ":")).seq
  (write_serial_cmd "1" "")).seq
  (wait_for_serial_read ":")).seq
  (write_serial_cmd "11E00" "")).seq
  (wait_for_serial_read "please send !")).seq
  (write_file_to_serial st.bl2_image)).seq
  (wait_for_serial_read ("EM_W Complete!"))

/-- `flash_fip_image_emmc`: `EM_W`/`1`/`100`/`00000`, then the fip image
after `please send !`, then wait for `EM_W Complete!`. -/
def flash_fip_image_emmc (st : FlashUtilState) : Run :=
  (((((((((write_serial_cmd "EM_W" "").seq
    (wait_for_serial_read ")>")).seq
   (write_serial_cmd "1" "")).seq
  (wait_for_serial_read ":")).seq
  (write_serial_cmd "100" "")).seq
  (wait_for_serial_read ":")).seq
  (write_serial_cmd "00000" "")).seq
  (wait_for_serial_read "please send !")).seq
  (write_file_to_serial st.fip_image)).seq
  (wait_for_serial_read ("EM_W Complete!"))

/-- `flash_bootloader_emmc` (progress-bar updates are console-only). -/
def flash_bootloader_emmc (st : FlashUtilState) : Run :=
  ((flash_erase_emmc.seq
    setup_emmc_flash).seq
   (flash_bl2_image_emmc st)).seq
  (flash_fip_image_emmc st)

/-- `flash_erase_qspi`: `\rXCS\r`, wait `Clear OK?`, `y`, wait `>`. -/
def flash_erase_qspi : Run :=
  (((write_serial_cmd "XCS" "\r").seq
    (wait_for_serial_read "Clear OK?")).seq
   (write_serial_cmd "y" "")).seq
  (wait_for_serial_read ">")

/-- The delimiter `Please Input : H'` awaited by the QSPI program mode. -/
def PLEASE_INPUT : String := "Please Input : H" ++ SQ

/-- `flash_bl2_image_qspi`: `XLS2`, offsets `11E00` then `00000` each after
`Please Input : H'`, then the bl2 image after `please send !`. -/
def flash_bl2_image_qspi (st : FlashUtilState) : Run :=
  ((((((write_serial_cmd "XLS2" "").seq
    (wait_for_serial_read PLEASE_INPUT)).seq
   (write_serial_cmd "11E00" "")).seq
  (wait_for_serial_read PLEASE_INPUT)).seq
  (write_serial_cmd "00000" "")).seq
  (wait_for_serial_read "please send !")).seq
  (write_file_to_serial st.bl2_image)

/-- `flash_fip_image_qspi`: `XLS2`, offsets `00000` then `1D200` each after
`Please Input : H'`, then the fip image after `please send`. -/
def flash_fip_image_qspi (st : FlashUtilState) : Run :=
  ((((((write_serial_cmd "XLS2" "").seq
    (wait_for_serial_read PLEASE_INPUT)).seq
   (write_serial_cmd "00000" "")).seq
  (wait_for_serial_read PLEASE_INPUT)).seq
  (write_serial_cmd "1D200" "")).seq
  (wait_for_serial_read "please send")).seq
  (write_file_to_serial st.fip_image)

/-- `flash_bootloader_qspi`. -/
def flash_bootloader_qspi (st : FlashUtilState) : Run :=
  (flash_erase_qspi.seq
   (flash_bl2_image_qspi st)).seq
  (flash_fip_image_qspi st)

/-- `write_bootloader`: preflight file check, wait for `please send !`,
upload the flash writer, then branch on `--qspi`. -/
def write_bootloader (env : Env) (st : FlashUtilState) : Run :=
  (((check_bootloader_files env st).seq
    (emit (.readUntil "please send !"))).seq
   (flash_flash_writer st)).seq
  (if st.args.qspi then flash_bootloader_qspi st else flash_bootloader_emmc st)

/-- The message of `__extract_adb`'s failure path (a Python string with a
line continuation, hence the embedded run of spaces). -/
def CANT_FIND_ADB_MSG : String :=
  "Can" ++ SQ ++ "t find adb for your system. " ++
  "                This util expects to be ran from the flash_rzboard.py dir."

/-- `__extract_adb`: `archive_path` starts empty; the platform branch runs
only when `<script_dir>/platform-tools` does not already exist; then the
archive must be a file (the empty path never is), is unzipped, and on
non-Windows hosts the fastboot binary is chmodded. -/
def extract_adb (env : Env) (script_dir : String) : Run :=
  let sel : Run × String :=
    if !env.pathExists (script_dir ++ "/platform-tools") then
      if env.platform == "linux" then
        (skipRun, script_dir ++ "/adb/platform-tools-latest-linux.zip")
      else if env.platform == "darwin" then
        (skipRun, script_dir ++ "/adb/platform-tools-latest-darwin.zip")
      else if env.platform == "win32" then
        (skipRun, script_dir ++ "/adb/platform-tools-latest-windows.zip")
      else (dieRun "Unknown platform." 1, "")
    else (skipRun, "")
  let archive_path := sel.2
  ((sel.1.seq
    (if isfile env archive_path then skipRun
     else dieRun CANT_FIND_ADB_MSG 1)).seq
   (emit (.extractZip archive_path (script_dir ++ "/adb")))).seq
  (if env.platform != "win32" then
     emit (.chmod (script_dir ++ "/adb/platform-tools/fastboot") 755)
   else skipRun)

/-- `.decode().replace("\n", "").replace("\r", "")`: remove every newline
and carriage return from the line read from the port. -/
def stripLineEndings (s : String) : String :=
  (s.replace "\n" "").replace "\r" ""

/-- The full fastboot command line `fastboot_path + " " + fastboot_args`
built in `write_system_image`. -/
def fastbootCmd (env : Env) (st : FlashUtilState) : String :=
  st.script_dir ++ "/adb/platform-tools/fastboot" ++ " " ++
    "-s udp:" ++ stripLineEndings env.readLineResult ++
    " -v flash rawimg " ++ st.rootfs_image

/-- `write_system_image`: preflight rootfs check (the `rootfs_image`
attribute is always a string by construction, so the `is None` guard can
never fire and is omitted), adb extraction, autoboot interrupt,
static-IP/DHCP branch, fastboot-mode entry, address read, fastboot
subprocess, exit-code check. -/
def write_system_image (env : Env) (st : FlashUtilState) : Run :=
  (((((((((((if isfile env st.rootfs_image then skipRun
      else dieRun ("Missing system image: " ++ st.rootfs_image) 1).seq
    (extract_adb env st.script_dir)).seq
   (emit (.readUntil "Hit any key to stop autoboot:"))).seq
  (write_serial_cmd "y" "")).seq
  (emit (.sleep 1))).seq
  (if !st.args.staticIP.isEmpty then
     write_serial_cmd ("\rsetenv ipaddr " ++ st.args.staticIP) ""
   else
     (write_serial_cmd "\rsetenv autoload no; dhcp" "").seq
       (emit (.readUntil "DHCP client bound")))).seq
  (emit (.sleep 1))).seq
  (write_serial_cmd "\rfastboot udp" "")).seq
  (emit (.readUntil "Listening for fastboot command on "))).seq
  (emit .readLine)).seq
  (emit (.runFastboot (fastbootCmd env st)))).seq
  (if env.fastbootReturncode != 0 then dieRun "Failed to flash rootfs." 1
   else skipRun)

/-- `bootloader_override` in `__init__`: all three bootloader image
overrides supplied (Python `and` over truthiness). -/
def bootloader_override (args : Args) : Bool :=
  truthy args.flash_writer_image_override &&
  truthy args.bl2_image_override &&
  truthy args.fip_image_override

/-- The `argparser.error` message of the no-operation branch (abridged to
its fixed first line; `ArgumentParser.error` exits with status 2). -/
def USAGE_ERROR_MSG : String := "Please specify which image(s) to flash."

/-- `FlashUtil.__init__` after argument parsing: dispatch on the mode
flags and overrides, opening the serial port before the selected
operation(s), or exit with a usage error when nothing was selected. -/
def flashUtilRun (env : Env) (script_dir : String) (args : Args) : Run :=
  let st := initState script_dir args
  if args.bootloader || bootloader_override args then
    (setup_serial_port env args).seq (write_bootloader env st)
  else if args.rootfs || truthy args.rootfs_image_override then
    (setup_serial_port env args).seq (write_system_image env st)
  else if args.full then
    ((setup_serial_port env args).seq (write_bootloader env st)).seq
      (write_system_image env st)
  else
    dieRun USAGE_ERROR_MSG 2

/-- Events that put bytes on the serial link. -/
def Event.isLinkWrite : Event → Bool
  | .serialWrite _ => true
  | .fileSend _ => true
  | _ => false

/-- Events that touch the serial link at all (reads or writes). -/
def Event.isSerialInteraction : Event → Bool
  | .serialWrite _ => true
  | .fileSend _ => true
  | .readUntil _ => true
  | .readLine => true
  | _ => false

/-- Serial-port open (attempt) events. -/
def Event.isOpen : Event → Bool
  | .openSerial _ _ => true
  | _ => false

/-- Fastboot subprocess invocations. -/
def Event.isRunFastboot : Event → Bool
  | .runFastboot _ => true
  | _ => false

/-! ## Derived traces and helper lemmas -/

/-- The full wire trace of `write_bootloader` on the eMMC target. -/
def emmcTrace (st : FlashUtilState) : List Event :=
  [.readUntil "please send !", .fileSend st.flash_writer_image, .readUntil ">",
   .serialWrite "EM_E\r", .readUntil ">", .serialWrite "1\r", .readUntil ">",
   .serialWrite "EM_SECSD\r", .readUntil ":", .serialWrite "b1\r",
   .readUntil ":", .serialWrite "2\r", .readUntil ">",
   .serialWrite "EM_SECSD\r", .readUntil ":", .serialWrite "b3\r",
   .readUntil ":", .serialWrite "8\r",
   .serialWrite "EM_W\r", .readUntil ">", .serialWrite "1\r", .readUntil ":",
   .serialWrite "1\r", .readUntil ":", .serialWrite "11E00\r",
   .readUntil "please send !", .fileSend st.bl2_image,
   .readUntil "EM_W Complete!",
   .serialWrite "EM_W\r", .readUntil ")>", .serialWrite "1\r", .readUntil ":",
   .serialWrite "100\r", .readUntil ":", .serialWrite "00000\r",
   .readUntil "please send !", .fileSend st.fip_image,
   .readUntil "EM_W Complete!"]

/-- The full wire trace of `write_bootloader` on the QSPI target. -/
def qspiTrace (st : FlashUtilState) : List Event :=
  [.readUntil "please send !", .fileSend st.flash_writer_image, .readUntil ">",
   .serialWrite "\rXCS\r", .readUntil "Clear OK?", .serialWrite "y\r",
   .readUntil ">",
   .serialWrite "XLS2\r", .readUntil PLEASE_INPUT, .serialWrite "11E00\r",
   .readUntil PLEASE_INPUT, .serialWrite "00000\r",
   .readUntil "please send !", .fileSend st.bl2_image,
   .serialWrite "XLS2\r", .readUntil PLEASE_INPUT, .serialWrite "00000\r",
   .readUntil PLEASE_INPUT, .serialWrite "1D200\r",
   .readUntil "please send", .fileSend st.fip_image]

/-- With all three bootloader images on disk and the eMMC target selected,
`write_bootloader` completes and performs exactly `emmcTrace`. -/
theorem write_bootloader_emmc_eq (env : Env) (st : FlashUtilState)
    (hq : st.args.qspi = false)
    (h1 : isfile env st.flash_writer_image = true)
    (h2 : isfile env st.bl2_image = true)
    (h3 : isfile env st.fip_image = true) :
    write_bootloader env st = ⟨emmcTrace st, .ok⟩ := by
  simp [write_bootloader, check_bootloader_files, flash_flash_writer,
    flash_bootloader_emmc, flash_erase_emmc, setup_emmc_flash,
    flash_bl2_image_emmc, flash_fip_image_emmc, write_serial_cmd,
    write_file_to_serial, wait_for_serial_read, h1, h2, h3, hq, emmcTrace]

/-- With all three bootloader images on disk and the QSPI target selected,
`write_bootloader` completes and performs exactly `qspiTrace`. -/
theorem write_bootloader_qspi_eq (env : Env) (st : FlashUtilState)
    (hq : st.args.qspi = true)
    (h1 : isfile env st.flash_writer_image = true)
    (h2 : isfile env st.bl2_image = true)
    (h3 : isfile env st.fip_image = true) :
    write_bootloader env st = ⟨qspiTrace st, .ok⟩ := by
  simp [write_bootloader, check_bootloader_files, flash_flash_writer,
    flash_bootloader_qspi, flash_erase_qspi, flash_bl2_image_qspi,
    flash_fip_image_qspi, write_serial_cmd,
    write_file_to_serial, wait_for_serial_read, h1, h2, h3, hq, qspiTrace]

/-! ## Concrete configurations used by the witnesses -/

/-- A world where every path exists, the port opens, the platform is
linux, the board reports address `10.0.0.5`, and fastboot succeeds. -/
def envW : Env :=
  { fileExists := fun _ => true
    pathExists := fun _ => false
    platform := "linux"
    serialOpenOk := true
    readLineResult := "10.0.0.5\r\n"
    fastbootReturncode := 0 }

/-- Default-flavoured arguments: `--bootloader`, everything else default. -/
def argsBase : Args :=
  { bootloader := true, rootfs := false, full := false
    serialPort := "/dev/ttyUSB0", baudRate := 115200
    flash_writer_image_override := none, bl2_image_override := none
    fip_image_override := none, rootfs_image_override := none
    image_path := none, staticIP := "", qspi := false, debug := false }

/-- The attribute state for a default `--bootloader` run from `/sd`. -/
def stEmmc : FlashUtilState := initState "/sd" argsBase

/-- The attribute state for a `--bootloader --qspi` run from `/sd`. -/
def stQspi : FlashUtilState := initState "/sd" { argsBase with qspi := true }

/-! ## Claim theorems -/

/-- C1: for the eMMC target, after the flash-writer upload
(`please send !` wait, flash-writer bytes, `>` wait), `write_bootloader`
issues `EM_E`/`1` each gated on `>`, then `EM_SECSD`,`b1`,`2` and
`EM_SECSD`,`b3`,`8` gated on `:`/`>`, then `EM_W`,`1`,`1`,`11E00`
followed by the bl2 (second-stage) bytes and an `EM_W Complete!` wait,
then `EM_W`,`1`,`100`,`00000` followed by the fip (firmware-package)
bytes: the wire trace is exactly `emmcTrace`, so `EM_E`, `EM_SECSD` and
`EM_W` appear in that relative order and the second-stage file is sent
before the firmware package. -/
theorem C1_emmc_bootloader_sequence (env : Env) (st : FlashUtilState)
    (hq : st.args.qspi = false)
    (h1 : isfile env st.flash_writer_image = true)
    (h2 : isfile env st.bl2_image = true)
    (h3 : isfile env st.fip_image = true) :
    write_bootloader env st = ⟨emmcTrace st, .ok⟩ :=
  write_bootloader_emmc_eq env st hq h1 h2 h3

/-- Witness for C1: the eMMC sequence at a concrete configuration. -/
theorem C1_emmc_bootloader_sequence_witness :
    write_bootloader envW stEmmc = ⟨emmcTrace stEmmc, .ok⟩ :=
  C1_emmc_bootloader_sequence envW stEmmc (by decide) (by decide) (by decide)
    (by decide)

/-- C2: for the QSPI target, `write_bootloader` performs exactly
`qspiTrace`: the `\rXCS\r` erase with `Clear OK?` wait and `y` confirm,
then `XLS2` with offsets `11E00`,`00000` each gated on
`Please Input : H'` and the bl2 bytes after a `please send !` wait, then
`XLS2` with offsets `00000`,`1D200` and the fip bytes after a
`please send` wait; and no `EM_E` or `EM_W` command is ever written. -/
theorem C2_qspi_bootloader_sequence (env : Env) (st : FlashUtilState)
    (hq : st.args.qspi = true)
    (h1 : isfile env st.flash_writer_image = true)
    (h2 : isfile env st.bl2_image = true)
    (h3 : isfile env st.fip_image = true) :
    write_bootloader env st = ⟨qspiTrace st, .ok⟩ ∧
    ∀ s, Event.serialWrite s ∈ (write_bootloader env st).trace →
      s ≠ "EM_E\r" ∧ s ≠ "EM_W\r" := by
  refine ⟨write_bootloader_qspi_eq env st hq h1 h2 h3, ?_⟩
  intro s hs
  rw [write_bootloader_qspi_eq env st hq h1 h2 h3] at hs
  simp only [qspiTrace, List.mem_cons, List.not_mem_nil, or_false] at hs
  rcases hs with h|h|h|h|h|h|h|h|h|h|h|h|h|h|h|h|h|h|h|h|h <;>
    first
    | (cases h; exact ⟨by decide, by decide⟩)
    | exact absurd h (by simp)

/-- Witness for C2: the QSPI sequence at a concrete configuration. -/
theorem C2_qspi_bootloader_sequence_witness :
    write_bootloader envW stQspi = ⟨qspiTrace stQspi, .ok⟩ ∧
    ∀ s, Event.serialWrite s ∈ (write_bootloader envW stQspi).trace →
      s ≠ "EM_E\r" ∧ s ≠ "EM_W\r" :=
  C2_qspi_bootloader_sequence envW stQspi (by decide) (by decide) (by decide)
    (by decide)

/-- C4: whichever storage target is selected, `write_bootloader` begins
with exactly: a blocking wait for `please send !`, the flash-writer image
bytes, and a blocking wait for `>`. -/
theorem C4_flash_writer_upload_first (env : Env) (st : FlashUtilState)
    (h1 : isfile env st.flash_writer_image = true)
    (h2 : isfile env st.bl2_image = true)
    (h3 : isfile env st.fip_image = true) :
    (write_bootloader env st).trace.take 3 =
      [Event.readUntil "please send !", Event.fileSend st.flash_writer_image,
       Event.readUntil ">"] := by
  cases hq : st.args.qspi with
  | false => rw [write_bootloader_emmc_eq env st hq h1 h2 h3]; rfl
  | true => rw [write_bootloader_qspi_eq env st hq h1 h2 h3]; rfl

/-- Witness for C4 at a concrete configuration. -/
theorem C4_flash_writer_upload_first_witness :
    (write_bootloader envW stEmmc).trace.take 3 =
      [Event.readUntil "please send !",
       Event.fileSend stEmmc.flash_writer_image, Event.readUntil ">"] :=
  C4_flash_writer_upload_first envW stEmmc (by decide) (by decide) (by decide)

/-- A world with an empty filesystem (used to exercise preflight errors). -/
def envNone : Env :=
  { fileExists := fun _ => false
    pathExists := fun _ => false
    platform := "linux"
    serialOpenOk := true
    readLineResult := ""
    fastbootReturncode := 0 }

/-- C3: a missing required image aborts before any byte reaches the link:
if any of the three bootloader images is missing, `write_bootloader` dies
with a non-zero code having performed no event at all; if the rootfs
image is missing, `write_system_image` likewise dies with an empty trace
(in particular before the boot-interrupt sequence). -/
theorem C3_preflight_missing_file (env : Env) (st : FlashUtilState) :
    ((isfile env st.flash_writer_image = false ∨
        isfile env st.bl2_image = false ∨ isfile env st.fip_image = false) →
      ∃ d, write_bootloader env st = ⟨[], .died d⟩ ∧ d.code ≠ 0) ∧
    (isfile env st.rootfs_image = false →
      ∃ d, write_system_image env st = ⟨[], .died d⟩ ∧ d.code ≠ 0) := by
  constructor
  · intro h
    cases hfw : isfile env st.flash_writer_image with
    | false =>
      exact ⟨⟨"Missing flash writer image: " ++ st.flash_writer_image, 1⟩,
        by simp [write_bootloader, check_bootloader_files, hfw],
        Nat.one_ne_zero⟩
    | true =>
      cases hbl : isfile env st.bl2_image with
      | false =>
        exact ⟨⟨"Missing bl2 image: " ++ st.bl2_image, 1⟩,
          by simp [write_bootloader, check_bootloader_files, hfw, hbl],
          Nat.one_ne_zero⟩
      | true =>
        cases hfip : isfile env st.fip_image with
        | false =>
          exact ⟨⟨"Missing FIP image: " ++ st.fip_image, 1⟩,
            by simp [write_bootloader, check_bootloader_files, hfw, hbl, hfip],
            Nat.one_ne_zero⟩
        | true => simp [hfw, hbl, hfip] at h
  · intro h
    exact ⟨⟨"Missing system image: " ++ st.rootfs_image, 1⟩,
      by simp [write_system_image, h], Nat.one_ne_zero⟩

/-- Witness for C3: on an empty filesystem, both operations die having
sent nothing. -/
theorem C3_preflight_missing_file_witness :
    (∃ d, write_bootloader envNone stEmmc = ⟨[], .died d⟩ ∧ d.code ≠ 0) ∧
    (∃ d, write_system_image envNone stEmmc = ⟨[], .died d⟩ ∧ d.code ≠ 0) :=
  ⟨(C3_preflight_missing_file envNone stEmmc).1 (Or.inl (by decide)),
   (C3_preflight_missing_file envNone stEmmc).2 (by decide)⟩

/-- Sequencing preserves a pointwise property of the trace. -/
theorem seq_all {p : Event → Bool} {r1 r2 : Run}
    (h1 : r1.trace.all p = true) (h2 : r2.trace.all p = true) :
    (r1.seq r2).trace.all p = true := by
  rcases r1 with ⟨t, o⟩
  cases o <;> simp_all [Run.seq, List.all_append]

/-- The trace of a sequence is the concatenation, or just the first part
when the first part died. -/
theorem seq_trace_cases (r1 r2 : Run) :
    (r1.seq r2).trace = r1.trace ++ r2.trace ∨ (r1.seq r2).trace = r1.trace := by
  rcases r1 with ⟨t, o⟩
  cases o <;> simp [Run.seq]

/-- `__setup_serial_port` performs exactly the open attempt and dies only
when the open raised. -/
theorem setup_serial_port_eq (env : Env) (args : Args) :
    setup_serial_port env args =
      ⟨[.openSerial args.serialPort args.baudRate],
       if env.serialOpenOk then .ok else .died ⟨UNABLE_OPEN_MSG, 1⟩⟩ := by
  simp only [setup_serial_port]
  split <;> simp_all

/-- `write_bootloader` never opens a serial port itself. -/
theorem write_bootloader_no_open (env : Env) (st : FlashUtilState) :
    (write_bootloader env st).trace.all (fun e => !e.isOpen) = true := by
  simp only [write_bootloader, check_bootloader_files, flash_flash_writer,
    flash_bootloader_emmc, flash_bootloader_qspi, flash_erase_emmc,
    setup_emmc_flash, flash_bl2_image_emmc, flash_fip_image_emmc,
    flash_erase_qspi, flash_bl2_image_qspi, flash_fip_image_qspi,
    write_serial_cmd, write_file_to_serial, wait_for_serial_read]
  repeat' first
    | apply seq_all
    | split
    | rfl

/-- Every event of `__extract_adb` is filesystem-only: no serial
interaction, no fastboot invocation, no port open. -/
theorem extract_adb_events (env : Env) (d : String) :
    (extract_adb env d).trace.all
      (fun e => !e.isSerialInteraction && !e.isRunFastboot && !e.isOpen) =
      true := by
  simp only [extract_adb]
  repeat' first
    | apply seq_all
    | split
    | rfl

/-- `write_system_image` never opens a serial port itself. -/
theorem write_system_image_no_open (env : Env) (st : FlashUtilState) :
    (write_system_image env st).trace.all (fun e => !e.isOpen) = true := by
  simp only [write_system_image, extract_adb, write_serial_cmd]
  repeat' first
    | apply seq_all
    | split
    | rfl

/-- C5: in every run, the serial-port open is the very first event and is
never repeated (so it precedes every protocol command), and it happens
exactly when one of the operations was selected (a mode flag, the
three-image bootloader override, or the rootfs-image override); with
nothing selected the run exits with the usage error, code 2, having
opened nothing. -/
theorem C5_serial_opened_once (env : Env) (script_dir : String) (args : Args) :
    ((args.bootloader || bootloader_override args || args.rootfs ||
        truthy args.rootfs_image_override || args.full) = true →
      ∃ rest, (flashUtilRun env script_dir args).trace =
          Event.openSerial args.serialPort args.baudRate :: rest ∧
        rest.all (fun e => !e.isOpen) = true) ∧
    ((args.bootloader || bootloader_override args || args.rootfs ||
        truthy args.rootfs_image_override || args.full) = false →
      flashUtilRun env script_dir args = ⟨[], .died ⟨USAGE_ERROR_MSG, 2⟩⟩) := by
  constructor
  · intro hsel
    have hwb := write_bootloader_no_open env (initState script_dir args)
    have hwsi := write_system_image_no_open env (initState script_dir args)
    simp only [flashUtilRun]
    by_cases h1 : (args.bootloader || bootloader_override args) = true
    · simp only [h1, if_true]
      rw [setup_serial_port_eq]
      cases hok : env.serialOpenOk
      · exact ⟨[], by simp [Run.seq, hok], rfl⟩
      · exact ⟨(write_bootloader env (initState script_dir args)).trace,
          by simp [Run.seq, hok], hwb⟩
    · by_cases h2 : (args.rootfs || truthy args.rootfs_image_override) = true
      · simp only [h1, h2, if_true, if_false, Bool.false_eq_true]
        rw [setup_serial_port_eq]
        cases hok : env.serialOpenOk
        · exact ⟨[], by simp [Run.seq, hok], rfl⟩
        · exact ⟨(write_system_image env (initState script_dir args)).trace,
            by simp [Run.seq, hok], hwsi⟩
      · have h3 : args.full = true := by
          rcases Bool.or_eq_true _ _ |>.mp hsel with h|h
          · rcases Bool.or_eq_true _ _ |>.mp h with h|h
            · rcases Bool.or_eq_true _ _ |>.mp h with h|h
              · rcases Bool.or_eq_true _ _ |>.mp h with h|h <;>
                  simp [h] at h1
              · simp [h] at h2
            · simp [h] at h2
          · exact h
        simp only [h1, h2, h3, if_true, if_false, Bool.false_eq_true]
        rw [setup_serial_port_eq]
        cases hok : env.serialOpenOk
        · exact ⟨[], by simp [Run.seq, hok], rfl⟩
        · rcases seq_trace_cases
            ((setup_serial_port env args).seq
              (write_bootloader env (initState script_dir args)))
            (write_system_image env (initState script_dir args)) with hc|hc
          all_goals rw [setup_serial_port_eq, hok] at hc
          · refine ⟨(write_bootloader env (initState script_dir args)).trace ++
              (write_system_image env (initState script_dir args)).trace,
              ?_, by simp [List.all_append, hwb, hwsi]⟩
            rw [hc]
            simp [Run.seq, hok]
          · refine ⟨(write_bootloader env (initState script_dir args)).trace,
              ?_, hwb⟩
            rw [hc]
            simp [Run.seq, hok]
  · intro hsel
    have h := Bool.or_eq_false_iff.mp hsel
    have h2 := Bool.or_eq_false_iff.mp h.1
    have h3 := Bool.or_eq_false_iff.mp h2.1
    have h4 := Bool.or_eq_false_iff.mp h3.1
    simp [flashUtilRun, h4.1, h4.2, h3.2, h2.2, h.2]

/-- Witness for C5: a `--bootloader` run opens the port first and once. -/
theorem C5_serial_opened_once_witness :
    ∃ rest, (flashUtilRun envW "/sd" argsBase).trace =
        Event.openSerial argsBase.serialPort argsBase.baudRate :: rest ∧
      rest.all (fun e => !e.isOpen) = true :=
  (C5_serial_opened_once envW "/sd" argsBase).1 (by decide)

/-- C9: the flash operations can be selected by image-override flags
alone: with no mode flag, supplying all three bootloader image overrides
runs the bootloader path (serial open then `write_bootloader`), and
supplying the rootfs image override (without the three-override combo)
runs the rootfs path; the usage error (exit 2, nothing done) occurs
exactly when neither a mode flag nor one of those override combinations
is present. -/
theorem C9_override_selection (env : Env) (script_dir : String) (args : Args) :
    (args.bootloader = false → args.rootfs = false → args.full = false →
      bootloader_override args = true →
      flashUtilRun env script_dir args =
        (setup_serial_port env args).seq
          (write_bootloader env (initState script_dir args))) ∧
    (args.bootloader = false → args.rootfs = false → args.full = false →
      bootloader_override args = false →
      truthy args.rootfs_image_override = true →
      flashUtilRun env script_dir args =
        (setup_serial_port env args).seq
          (write_system_image env (initState script_dir args))) ∧
    (flashUtilRun env script_dir args = ⟨[], .died ⟨USAGE_ERROR_MSG, 2⟩⟩ ↔
      args.bootloader = false ∧ bootloader_override args = false ∧
      args.rootfs = false ∧ truthy args.rootfs_image_override = false ∧
      args.full = false) := by
  refine ⟨?_, ?_, ?_, ?_⟩
  · intro hb _ _ ho
    simp [flashUtilRun, hb, ho]
  · intro hb hr _ ho hro
    simp [flashUtilRun, hb, hr, ho, hro]
  · intro h
    by_cases h1 : (args.bootloader || bootloader_override args) = true
    · exfalso
      have ht := congrArg Run.trace h
      simp only [flashUtilRun, h1, if_true] at ht
      rcases seq_trace_cases (setup_serial_port env args)
          (write_bootloader env (initState script_dir args)) with hc|hc <;>
        rw [hc, setup_serial_port_eq] at ht <;> simp at ht
    · by_cases h2 : (args.rootfs || truthy args.rootfs_image_override) = true
      · exfalso
        have ht := congrArg Run.trace h
        simp only [flashUtilRun, h1, h2, if_true, if_false,
          Bool.false_eq_true] at ht
        rcases seq_trace_cases (setup_serial_port env args)
            (write_system_image env (initState script_dir args)) with hc|hc <;>
          rw [hc, setup_serial_port_eq] at ht <;> simp at ht
      · by_cases h3 : args.full = true
        · exfalso
          have ht := congrArg Run.trace h
          simp only [flashUtilRun, h1, h2, h3, if_true, if_false,
            Bool.false_eq_true] at ht
          rcases seq_trace_cases
              ((setup_serial_port env args).seq
                (write_bootloader env (initState script_dir args)))
              (write_system_image env (initState script_dir args)) with hc|hc <;>
            rcases seq_trace_cases (setup_serial_port env args)
                (write_bootloader env (initState script_dir args)) with hc2|hc2 <;>
            rw [hc, hc2, setup_serial_port_eq] at ht <;> simp at ht
        · have e1 := Bool.or_eq_false_iff.mp (eq_false_of_ne_true h1)
          have e2 := Bool.or_eq_false_iff.mp (eq_false_of_ne_true h2)
          exact ⟨e1.1, e1.2, e2.1, e2.2, eq_false_of_ne_true h3⟩
  · rintro ⟨hb, ho, hr, hro, hf⟩
    simp [flashUtilRun, hb, ho, hr, hro, hf]

/-- Witness for C9: all three bootloader overrides and no mode flag run
the bootloader path. -/
theorem C9_override_selection_witness :
    flashUtilRun envW "/sd"
        { argsBase with bootloader := false
                        flash_writer_image_override := some "/o/w.mot"
                        bl2_image_override := some "/o/b.srec"
                        fip_image_override := some "/o/f.srec" } =
      (setup_serial_port envW
          { argsBase with bootloader := false
                          flash_writer_image_override := some "/o/w.mot"
                          bl2_image_override := some "/o/b.srec"
                          fip_image_override := some "/o/f.srec" }).seq
        (write_bootloader envW (initState "/sd"
          { argsBase with bootloader := false
                          flash_writer_image_override := some "/o/w.mot"
                          bl2_image_override := some "/o/b.srec"
                          fip_image_override := some "/o/f.srec" })) :=
  (C9_override_selection envW "/sd" _).1 rfl rfl rfl (by decide)

/-- The serial/subprocess tail `write_system_image` performs after the
adb extraction: autoboot interrupt, network setup (static IP or DHCP),
fastboot-mode entry, address line read, fastboot invocation. -/
def wsiTail (env : Env) (st : FlashUtilState) : List Event :=
  [.readUntil "Hit any key to stop autoboot:", .serialWrite "y\r", .sleep 1] ++
  (if !st.args.staticIP.isEmpty then
     [.serialWrite ("\rsetenv ipaddr " ++ st.args.staticIP ++ "\r")]
   else
     [.serialWrite "\rsetenv autoload no; dhcp\r",
      .readUntil "DHCP client bound"]) ++
  [.sleep 1, .serialWrite "\rfastboot udp\r",
   .readUntil "Listening for fastboot command on ", .readLine,
   .runFastboot (fastbootCmd env st)]

/-- When the rootfs image exists and the adb extraction succeeds,
`write_system_image` performs the extraction events followed by exactly
`wsiTail`, dying at the very end exactly when fastboot returned
non-zero. -/
theorem write_system_image_eq (env : Env) (st : FlashUtilState)
    (hf : isfile env st.rootfs_image = true)
    (hx : (extract_adb env st.script_dir).outcome = .ok) :
    write_system_image env st =
      ⟨(extract_adb env st.script_dir).trace ++ wsiTail env st,
       if env.fastbootReturncode != 0 then
         .died ⟨"Failed to flash rootfs.", 1⟩
       else .ok⟩ := by
  rcases hE : extract_adb env st.script_dir with ⟨tx, ox⟩
  rw [hE] at hx
  simp only at hx
  subst hx
  simp only [write_system_image, hE, hf, if_true, wsiTail,
    write_serial_cmd, emit_def, skipRun_def, dieRun_def, Run.seq_trace_ok]
  split <;> split <;> simp

/-- `setenv ipaddr <ip>` is a different wire command from the DHCP one,
whatever the configured address. -/
theorem setenv_ipaddr_ne_dhcp (ip : String) :
    "\rsetenv ipaddr " ++ ip ++ "\r" ≠ "\rsetenv autoload no; dhcp\r" := by
  intro h
  have h2 := congrArg String.data h
  simp at h2

/-- C10: when `<script_dir>/platform-tools` already exists, the platform
branch of `__extract_adb` is skipped, the archive path stays empty, and
the run always dies with the cannot-find-adb error — so under the same
condition `write_system_image` aborts before any serial interaction
(empty trace), however the rest of the filesystem looks. -/
theorem C10_platform_tools_short_circuit (env : Env) (script_dir : String)
    (st : FlashUtilState)
    (h : env.pathExists (script_dir ++ "/platform-tools") = true)
    (hst : st.script_dir = script_dir)
    (hf : isfile env st.rootfs_image = true) :
    extract_adb env script_dir = ⟨[], .died ⟨CANT_FIND_ADB_MSG, 1⟩⟩ ∧
    write_system_image env st = ⟨[], .died ⟨CANT_FIND_ADB_MSG, 1⟩⟩ := by
  have h0 : ("" : String).isEmpty = true := rfl
  have hext : extract_adb env script_dir =
      ⟨[], .died ⟨CANT_FIND_ADB_MSG, 1⟩⟩ := by
    simp [extract_adb, h, isfile, h0]
  refine ⟨hext, ?_⟩
  rw [write_system_image, hst, hext]
  simp [hf]

/-- A world where `platform-tools` already exists and every file is
present. -/
def envPT : Env :=
  { fileExists := fun _ => true
    pathExists := fun _ => true
    platform := "linux"
    serialOpenOk := true
    readLineResult := "10.0.0.5\r\n"
    fastbootReturncode := 0 }

/-- Witness for C10 at a concrete configuration. -/
theorem C10_platform_tools_short_circuit_witness :
    extract_adb envPT "/sd" = ⟨[], .died ⟨CANT_FIND_ADB_MSG, 1⟩⟩ ∧
    write_system_image envPT stEmmc = ⟨[], .died ⟨CANT_FIND_ADB_MSG, 1⟩⟩ :=
  C10_platform_tools_short_circuit envPT "/sd" stEmmc (by decide) (by decide)
    (by decide)

/-- An event failing the predicate cannot occur in a trace satisfying it
everywhere. -/
theorem not_mem_of_all {p : Event → Bool} {l : List Event}
    (hall : l.all p = true) {e : Event} (he : p e = false) : e ∉ l :=
  fun hmem => by
    have := List.all_eq_true.mp hall e hmem
    rw [he] at this
    exact Bool.false_ne_true this

/-- C6: after interrupting autoboot, `write_system_image` sends
`setenv ipaddr <addr>` and touches neither the DHCP command nor the
`DHCP client bound` wait when a static IP is configured; with no static
IP it sends `setenv autoload no; dhcp` and blocks for
`DHCP client bound`. -/
theorem C6_network_setup_branch (env : Env) (st : FlashUtilState)
    (hf : isfile env st.rootfs_image = true)
    (hx : (extract_adb env st.script_dir).outcome = .ok) :
    (st.args.staticIP ≠ "" →
      Event.serialWrite ("\rsetenv ipaddr " ++ st.args.staticIP ++ "\r") ∈
          (write_system_image env st).trace ∧
      Event.serialWrite "\rsetenv autoload no; dhcp\r" ∉
          (write_system_image env st).trace ∧
      Event.readUntil "DHCP client bound" ∉
          (write_system_image env st).trace) ∧
    (st.args.staticIP = "" →
      Event.serialWrite "\rsetenv autoload no; dhcp\r" ∈
          (write_system_image env st).trace ∧
      Event.readUntil "DHCP client bound" ∈
          (write_system_image env st).trace) := by
  have hall := extract_adb_events env st.script_dir
  rw [write_system_image_eq env st hf hx]
  constructor
  · intro hs
    have hs2 : st.args.staticIP.isEmpty = false :=
      Bool.eq_false_iff.mpr (fun hb => hs ((String.isEmpty_iff _).mp hb))
    refine ⟨by simp [wsiTail, hs2], ?_, ?_⟩
    · intro hmem
      simp only [List.mem_append] at hmem
      rcases hmem with hmem|hmem
      · exact not_mem_of_all hall (by rfl) hmem
      · simp [wsiTail, hs2, List.mem_append] at hmem
        exact setenv_ipaddr_ne_dhcp st.args.staticIP hmem.symm
    · intro hmem
      simp only [List.mem_append] at hmem
      rcases hmem with hmem|hmem
      · exact not_mem_of_all hall (by rfl) hmem
      · simp [wsiTail, hs2, List.mem_append] at hmem
  · intro hs
    have hs2 : st.args.staticIP.isEmpty = true := (String.isEmpty_iff _).mpr hs
    exact ⟨by simp [wsiTail, hs2], by simp [wsiTail, hs2]⟩

/-- The state for a `--rootfs --static_ip 10.0.0.9` run from `/sd`. -/
def stStatic : FlashUtilState :=
  initState "/sd"
    { argsBase with bootloader := false, rootfs := true,
                    staticIP := "10.0.0.9" }

/-- Witness for C6: with a static IP configured, the `setenv ipaddr`
command is sent and the DHCP interactions never happen. -/
theorem C6_network_setup_branch_witness :
    Event.serialWrite ("\rsetenv ipaddr " ++ stStatic.args.staticIP ++ "\r") ∈
        (write_system_image envW stStatic).trace ∧
    Event.serialWrite "\rsetenv autoload no; dhcp\r" ∉
        (write_system_image envW stStatic).trace ∧
    Event.readUntil "DHCP client bound" ∉
        (write_system_image envW stStatic).trace :=
  (C6_network_setup_branch envW stStatic (by decide) (by decide)).1
    (by decide)

/-- C7: after the `Listening for fastboot command on ` wait, the next
line read from the link — with its carriage returns and newlines removed
— becomes the device address, and fastboot is invoked exactly once, its
command line carrying `-s udp:<that address>` and
`-v flash rawimg <rootfs image path>`. -/
theorem C7_fastboot_address_and_invocation (env : Env) (st : FlashUtilState)
    (hf : isfile env st.rootfs_image = true)
    (hx : (extract_adb env st.script_dir).outcome = .ok) :
    (write_system_image env st).trace.countP
        (fun e => e.isRunFastboot) = 1 ∧
    ∃ pre, (write_system_image env st).trace =
      pre ++ [Event.readUntil "Listening for fastboot command on ",
        Event.readLine,
        Event.runFastboot (st.script_dir ++ "/adb/platform-tools/fastboot" ++
          " " ++ "-s udp:" ++ stripLineEndings env.readLineResult ++
          " -v flash rawimg " ++ st.rootfs_image)] := by
  have hall := extract_adb_events env st.script_dir
  rw [write_system_image_eq env st hf hx]
  constructor
  · have h0 : (extract_adb env st.script_dir).trace.countP
        (fun e => e.isRunFastboot) = 0 := by
      rw [List.countP_eq_zero]
      intro a ha
      have := List.all_eq_true.mp hall a ha
      cases a <;> simp_all [Event.isRunFastboot]
    simp only [List.countP_append, h0, Nat.zero_add]
    cases hb : st.args.staticIP.isEmpty <;>
      simp [wsiTail, hb, List.countP_append, List.countP_cons,
        Event.isRunFastboot]
  · refine ⟨(extract_adb env st.script_dir).trace ++
      ([.readUntil "Hit any key to stop autoboot:", .serialWrite "y\r",
        .sleep 1] ++
       (if !st.args.staticIP.isEmpty then
          [Event.serialWrite ("\rsetenv ipaddr " ++ st.args.staticIP ++ "\r")]
        else
          [Event.serialWrite "\rsetenv autoload no; dhcp\r",
           Event.readUntil "DHCP client bound"]) ++
       [.sleep 1, .serialWrite "\rfastboot udp\r"]), ?_⟩
    simp [wsiTail, fastbootCmd, List.append_assoc]

/-- Witness for C7 at a concrete configuration (board reports
`10.0.0.5`). -/
theorem C7_fastboot_address_and_invocation_witness :
    (write_system_image envW stStatic).trace.countP
        (fun e => e.isRunFastboot) = 1 ∧
    ∃ pre, (write_system_image envW stStatic).trace =
      pre ++ [Event.readUntil "Listening for fastboot command on ",
        Event.readLine,
        Event.runFastboot (stStatic.script_dir ++
          "/adb/platform-tools/fastboot" ++ " " ++ "-s udp:" ++
          stripLineEndings envW.readLineResult ++ " -v flash rawimg " ++
          stStatic.rootfs_image)] :=
  C7_fastboot_address_and_invocation envW stStatic (by decide) (by decide)

/-- C8: with the serial handshake complete (the full event tail was
performed), a non-zero fastboot exit makes `write_system_image` die with
`Failed to flash rootfs.` and a non-zero process exit code, while a zero
exit completes the run with no such failure. -/
theorem C8_fastboot_exit_code (env : Env) (st : FlashUtilState)
    (hf : isfile env st.rootfs_image = true)
    (hx : (extract_adb env st.script_dir).outcome = .ok) :
    (env.fastbootReturncode ≠ 0 →
      (write_system_image env st).outcome =
          .died ⟨"Failed to flash rootfs.", 1⟩ ∧
      (1 : Nat) ≠ 0 ∧
      (write_system_image env st).trace =
        (extract_adb env st.script_dir).trace ++ wsiTail env st) ∧
    (env.fastbootReturncode = 0 →
      (write_system_image env st).outcome = .ok ∧
      (write_system_image env st).trace =
        (extract_adb env st.script_dir).trace ++ wsiTail env st) := by
  rw [write_system_image_eq env st hf hx]
  constructor
  · intro hrc
    exact ⟨by simp [hrc], Nat.one_ne_zero, rfl⟩
  · intro hrc
    exact ⟨by simp [hrc], rfl⟩

/-- Witness for C8: a failing fastboot subprocess at a concrete
configuration. -/
theorem C8_fastboot_exit_code_witness :
    (write_system_image { envW with fastbootReturncode := 1 }
        stStatic).outcome = .died ⟨"Failed to flash rootfs.", 1⟩ ∧
    (1 : Nat) ≠ 0 ∧
    (write_system_image { envW with fastbootReturncode := 1 }
        stStatic).trace =
      (extract_adb { envW with fastbootReturncode := 1 }
          stStatic.script_dir).trace ++
        wsiTail { envW with fastbootReturncode := 1 } stStatic :=
  (C8_fastboot_exit_code { envW with fastbootReturncode := 1 } stStatic
      (by decide) (by decide)).1 (by decide)

end RZBoard
